import Mathlib

/-!
Verification of `src/pytorch/util.py` of the WeatherBench fork: the temporal
index resolver `get_year_idx`, the dataset factory `load_data`, and the model
factory `named_network`, embedded shallowly.

The merged xarray time axis is represented by its per-year chunk sizes
`chunks : List Nat` (`x.chunks['time']`, one timestep count per calendar year
starting at 1979).  Python `None` / strings are modelled with `Option String`.
-/

namespace WeatherBench

/-- Python slicing `xs[:j]` for an integer `j` (negative `j` counts from the
end, as in Python), used for `x.chunks['time'][:(int(yr)-1979+i)]`. -/
def pySliceTo (xs : List Nat) (j : Int) : List Nat :=
  if 0 ≤ j then xs.take j.toNat
  else xs.take (xs.length - (-j).toNat)

/-- `np.min` of a list of integers; the source only applies it to
`past_times + [0]`, which is never empty, so the `[]` branch is unreachable. -/
def npMin : List Int → Int
  | [] => 0
  | x :: xs => xs.foldl min x

/-- The first line of `get_year_idx` (src/pytorch/util.py line 38), before the
validity margins: `[np.sum(x.chunks['time'][:(int(yr)-1979+i)]) for i,yr in
enumerate(yrs)]` for a two-element year range `yrs = (yr_start, yr_end)`. -/
def raw_year_idx (chunks : List Nat) (yrs : Int × Int) : Int × Int :=
  ((pySliceTo chunks (yrs.1 - 1979 + 0)).sum, (pySliceTo chunks (yrs.2 - 1979 + 1)).sum)

/-- `get_year_idx` from src/pytorch/util.py lines 37-40: cumulative chunk sums
for the two-element year range, then the margins
`idx[0] - np.min(past_times+[0])` and `idx[1] - lead_time`. -/
def get_year_idx (chunks : List Nat) (past_times : List Int) (lead_time : Int)
    (yrs : Int × Int) : Int × Int :=
  let idx := raw_year_idx chunks yrs
  (idx.1 - npMin (past_times ++ [0]), idx.2 - lead_time)

/-- A file argument to `Dataset_memmap`: either a filesystem path (the
constructor opens it) or an already-opened in-memory handle. -/
inductive FileRef
  | path (p : String)
  | opened (p : String)
  deriving DecidableEq, Repr

/-- Modelled from the spec: the `Dataset_memmap` constructor
(src/pytorch/Dataset.py, absent from the sources) physically opens a
filesystem path, yielding the opened handle, and reuses an already-opened
handle unchanged. -/
def resolveRef : FileRef → FileRef
  | .path p => .opened p
  | r => r

/-- Modelled from the spec: the physical file opens a single `Dataset_memmap`
construction performs for one file argument (one open when handed a path,
none when handed an already-opened handle). -/
def refOpens : FileRef → List String
  | .path p => [p]
  | _ => []

/-- Element dtype passed to `Dataset_memmap` (the source passes `np.float32`). -/
inductive NpDtype
  | float32
  | float64
  deriving DecidableEq, Repr

/-- The argument record of one `Dataset_memmap` construction, as passed by
`load_data` (src/pytorch/util.py lines 43-64); `α` is the type of the opaque
variable catalogs. -/
structure Dataset_memmap (α : Type) where
  filedir : FileRef
  leveldir : FileRef
  var_dict : α
  lead_time : Int
  start : Int
  endIdx : Int
  randomize_order : Bool
  target_var_dict : α
  mmap_mode : Option String
  dtype : NpDtype
  past_times : List Int
  past_times_own_axis : Bool
  verbose : Bool

/-- Modelled from the spec: the backing-array handle `dg.data` exposed by a
constructed `Dataset_memmap` (the opened file when a path was passed, the
reused handle otherwise). -/
def Dataset_memmap.data {α : Type} (d : Dataset_memmap α) : FileRef :=
  resolveRef d.filedir

/-- Modelled from the spec: the level-name metadata handle `dg.level_names`
exposed by a constructed `Dataset_memmap`. -/
def Dataset_memmap.level_names {α : Type} (d : Dataset_memmap α) : FileRef :=
  resolveRef d.leveldir

/-- Physical file opens performed by one `Dataset_memmap` construction. -/
def Dataset_memmap.opens {α : Type} (d : Dataset_memmap α) : List String :=
  refOpens d.filedir ++ refOpens d.leveldir

/-- Result of `load_data`: the three dataset views plus the observable
"will load entire dataset into memory" warning. -/
structure LoadDataResult (α : Type) where
  dg_train : Dataset_memmap α
  dg_validation : Dataset_memmap α
  dg_test : Dataset_memmap α
  warned : Bool

/-- `load_data` from src/pytorch/util.py lines 19-66.  The lazy xarray merge
only contributes the per-year chunk sizes of the merged time axis, passed in
as `chunks`.  `mmap_mode` is the Python argument (`none` models Python
`None`); the `'None'`-string / `None` normalization and warning of lines
26-29 are reproduced, then the three views are constructed with the resolved
`(start, end)` windows, the train view from the file paths and the
validation/test views from the train view's handles. -/
def load_data {α : Type} (var_dict : α) (lead_time : Int)
    (train_years validation_years test_years : Int × Int)
    (target_var_dict : α) (datadir : String) (mmap_mode : Option String)
    (past_times : List Int) (past_times_own_axis : Bool) (verbose : Bool)
    (chunks : List Nat) : LoadDataResult α :=
  let filedir := datadir ++ "5_625deg_all_zscored.npy"
  let leveldir := datadir ++ "5_625deg_all_level_names.npy"
  let warned := mmap_mode = some "None" ∨ mmap_mode = none
  let mmap_mode := if mmap_mode = some "None" ∨ mmap_mode = none then none else mmap_mode
  let se₁ := get_year_idx chunks past_times lead_time train_years
  let dg_train : Dataset_memmap α :=
    { filedir := .path filedir, leveldir := .path leveldir,
      var_dict := var_dict, lead_time := lead_time,
      start := se₁.1, endIdx := se₁.2, randomize_order := true,
      target_var_dict := target_var_dict, mmap_mode := mmap_mode,
      dtype := .float32, past_times := past_times,
      past_times_own_axis := past_times_own_axis, verbose := verbose }
  let se₂ := get_year_idx chunks past_times lead_time validation_years
  let dg_validation : Dataset_memmap α :=
    { filedir := dg_train.data, leveldir := dg_train.level_names,
      var_dict := var_dict, lead_time := lead_time,
      start := se₂.1, endIdx := se₂.2, randomize_order := false,
      target_var_dict := target_var_dict, mmap_mode := mmap_mode,
      dtype := .float32, past_times := past_times,
      past_times_own_axis := past_times_own_axis, verbose := verbose }
  let se₃ := get_year_idx chunks past_times lead_time test_years
  let dg_test : Dataset_memmap α :=
    { filedir := dg_train.data, leveldir := dg_train.level_names,
      var_dict := var_dict, lead_time := lead_time,
      start := se₃.1, endIdx := se₃.2, randomize_order := false,
      target_var_dict := target_var_dict, mmap_mode := mmap_mode,
      dtype := .float32, past_times := past_times,
      past_times_own_axis := past_times_own_axis, verbose := verbose }
  { dg_train := dg_train, dg_validation := dg_validation, dg_test := dg_test,
    warned := decide warned }

/-- All physical file opens across the three view constructions of one
`load_data` call, in construction order. -/
def LoadDataResult.openTrace {α : Type} (r : LoadDataResult α) : List String :=
  r.dg_train.opens ++ r.dg_validation.opens ++ r.dg_test.opens

/-- Errors the model factory can raise: the `assert` on line 160
(`AssertionError`), Python `IndexError` from `kwargs['filters'][-1]` on an
empty list, the modelled `ValueError` of the `CircConvLSTM` length contract,
and the `raise NotImplementedError()` of line 172. -/
inductive FactoryError
  | assertionError (msg : String)
  | indexError
  | valueError (msg : String)
  | notImplementedError
  deriving DecidableEq, Repr

/-- A constructed model, recorded as the constructor invoked together with the
arguments visible in src/pytorch/util.py. -/
inductive ConstructedModel
  | simpleCNN (filters : List Nat) (kernels : List Nat) (channels : Nat)
  | circUNet (in_channels : Nat) (out_channels : Nat)
  | fcnResnet50 (n_input_channels : Nat) (n_output_channels : Nat)
  | fcnResNet (in_channels : Nat) (out_channels : Nat)
  | circConvLSTM (input_dim : Nat) (num_layers : Nat)
      (kernel_size : List (Nat × Nat)) (hidden_dim : List Nat)
  deriving DecidableEq, Repr

/-- Modelled from the spec: the `CircConvLSTM` constructor
(src/pytorch/convlstm.py, absent from the sources) requires matched-length
kernel and filter lists; inconsistent lengths fail its contract check and no
model object is constructed. -/
def circConvLSTM_new (input_dim num_layers : Nat) (kernel_size : List (Nat × Nat))
    (hidden_dim : List Nat) : Except FactoryError ConstructedModel :=
  if kernel_size.length = num_layers ∧ hidden_dim.length = num_layers then
    .ok (.circConvLSTM input_dim num_layers kernel_size hidden_dim)
  else
    .error (.valueError "Inconsistent list length.")

/-- `named_network` from src/pytorch/util.py lines 69-174: a string-keyed
dispatch over the five supported architectures.  The free-form `kwargs` are
modelled by the two keys the ConvLSTM branch reads (`kernel_sizes`,
`filters`); the other branches construct their models from the input/output
channel counts alone.  The ConvLSTM branch rebuilds its kwargs (lines
151-158), runs the `assert kwargs['hidden_dim'][-1] == n_output_channels`
contract check (line 160), and only then calls the `CircConvLSTM`
constructor; an unrecognized name raises `NotImplementedError` (line 172). -/
def named_network (model_name : String) (n_input_channels n_output_channels : Nat)
    (kernel_sizes : List Nat) (filters : List Nat) :
    Except FactoryError ConstructedModel :=
  if model_name = "cnnbn" then
    .ok (.simpleCNN [64, 64, 64, 64, n_output_channels] [5, 5, 5, 5, 5] n_input_channels)
  else if model_name = "Unetbn" then
    .ok (.circUNet n_input_channels n_output_channels)
  else if model_name = "tvfcnResnet50" then
    .ok (.fcnResnet50 n_input_channels n_output_channels)
  else if model_name = "simpleResnet" then
    .ok (.fcnResNet n_input_channels n_output_channels)
  else if model_name = "ConvLSTM" then
    let num_layers := kernel_sizes.length
    let kernel_size := kernel_sizes.map (fun i => (i, i))
    let hidden_dim := filters
    match hidden_dim.getLast? with
    | none => .error .indexError
    | some last =>
      if last = n_output_channels then
        circConvLSTM_new n_input_channels num_layers kernel_size hidden_dim
      else
        .error (.assertionError "final hidden dim is overall output dim of network!")
  else
    .error .notImplementedError

/-! ### Helper lemmas -/

theorem foldl_min_le_init (xs : List Int) (a : Int) : xs.foldl min a ≤ a := by
  induction xs generalizing a with
  | nil => simp
  | cons y ys ih => exact le_trans (ih (min a y)) (min_le_left a y)

theorem foldl_min_le_mem (xs : List Int) (a x : Int) (hx : x ∈ xs) :
    xs.foldl min a ≤ x := by
  induction xs generalizing a with
  | nil => cases hx
  | cons y ys ih =>
    rcases List.mem_cons.mp hx with h | h
    · subst h
      exact le_trans (foldl_min_le_init ys (min a x)) (min_le_right a x)
    · exact ih (min a y) h

theorem npMin_append_zero_le {past_times : List Int} {p : Int} (hp : p ∈ past_times) :
    npMin (past_times ++ [0]) ≤ p := by
  cases past_times with
  | nil => cases hp
  | cons a rest =>
    rcases List.mem_cons.mp hp with h | h
    · subst h
      exact foldl_min_le_init (rest ++ [0]) p
    · exact foldl_min_le_mem (rest ++ [0]) a p (List.mem_append_left _ h)

theorem npMin_append_zero_nonpos (past_times : List Int) :
    npMin (past_times ++ [0]) ≤ 0 := by
  cases past_times with
  | nil => simp [npMin]
  | cons a rest =>
    exact foldl_min_le_mem (rest ++ [0]) a 0 (List.mem_append_right _ (by simp))

theorem sum_take_le_sum (l : List Nat) (k : Nat) : (l.take k).sum ≤ l.sum := by
  conv_rhs => rw [← List.take_append_drop k l]
  rw [List.sum_append]
  exact Nat.le_add_right _ _

theorem sum_take_mono (l : List Nat) {j k : Nat} (h : j ≤ k) :
    (l.take j).sum ≤ (l.take k).sum := by
  rw [show l.take j = (l.take k).take j by rw [List.take_take, Nat.min_eq_left h]]
  exact sum_take_le_sum _ _

theorem sum_take_succ (l : List Nat) (k : Nat) (h : k < l.length) :
    (l.take (k + 1)).sum = (l.take k).sum + l.getD k 0 := by
  rw [List.take_succ, List.sum_append]
  congr 1
  rw [List.getElem?_eq_getElem h]
  simp [List.getD, List.getElem?_eq_getElem h]

theorem sum_take_eq_range_sum (l : List Nat) (k : Nat) (hk : k ≤ l.length) :
    ((l.take k).sum : Int) = ∑ i in Finset.range k, (l.getD i 0 : Int) := by
  induction k with
  | zero => simp
  | succ n ih =>
    rw [Finset.sum_range_succ, ← ih (by omega), sum_take_succ l n (by omega)]
    push_cast
    ring

theorem pySliceTo_of_nonneg (xs : List Nat) {j : Int} (hj : 0 ≤ j) :
    pySliceTo xs j = xs.take j.toNat := by
  simp [pySliceTo, hj]

theorem pySliceTo_sum_le (xs : List Nat) (j : Int) :
    (pySliceTo xs j).sum ≤ xs.sum := by
  unfold pySliceTo
  split <;> exact sum_take_le_sum _ _

/-! ### Claim theorems -/

/-- Claim C1: for a two-element year range with both years in the indexed
epoch range, the resolver returns the pair whose components, before the
margins, are the cumulative sum of per-year chunk sizes at indices `0`
through `yr_start - 1979 - 1` and at indices `0` through `yr_end - 1979`
respectively: the end cumulative sum takes exactly one more year's chunk
than the start boundary index does. -/
theorem get_year_idx_cumsum (chunks : List Nat) (past_times : List Int)
    (lead_time : Int) (ys ye : Int) (hys : 1979 ≤ ys) (hye : 1979 ≤ ye)
    (hsl : (ys - 1979).toNat ≤ chunks.length)
    (hel : (ye - 1979).toNat < chunks.length) :
    get_year_idx chunks past_times lead_time (ys, ye)
      = ((∑ i in Finset.range (ys - 1979).toNat, (chunks.getD i 0 : Int))
            - npMin (past_times ++ [0]),
         (∑ i in Finset.range ((ye - 1979).toNat + 1), (chunks.getD i 0 : Int))
            - lead_time) := by
  simp only [get_year_idx, raw_year_idx]
  rw [pySliceTo_of_nonneg _ (by omega : (0:Int) ≤ ys - 1979 + 0),
      pySliceTo_of_nonneg _ (by omega : (0:Int) ≤ ye - 1979 + 1)]
  have h1 : (ys - 1979 + 0).toNat = (ys - 1979).toNat := by omega
  have h2 : (ye - 1979 + 1).toNat = (ye - 1979).toNat + 1 := by omega
  rw [h1, h2, Prod.mk.injEq]
  constructor
  · rw [sum_take_eq_range_sum chunks _ hsl]
  · rw [sum_take_eq_range_sum chunks _ (by omega)]

theorem get_year_idx_cumsum_witness :
    get_year_idx [10, 20, 30] [-2, -1] 6 (1980, 1981)
      = ((∑ i in Finset.range ((1980:Int) - 1979).toNat,
            (([10, 20, 30] : List Nat).getD i 0 : Int)) - npMin ([-2, -1] ++ [0]),
         (∑ i in Finset.range (((1981:Int) - 1979).toNat + 1),
            (([10, 20, 30] : List Nat).getD i 0 : Int)) - 6) :=
  get_year_idx_cumsum [10, 20, 30] [-2, -1] 6 1980 1981 (by decide) (by decide)
    (by decide) (by decide)

/-- Claim C2: with non-positive past-time offsets, non-negative lead time and
requested years inside the indexed range, the resolver subtracts
`min(past_times, 0)` from the start cumulative sum and `lead_time` from the
end cumulative sum, and consequently every sample index `i` of the resolved
window `[idx_start, idx_end)` satisfies `0 ≤ i + p` for every past-time
offset `p` and `i + lead_time <` the total length of the merged time axis. -/
theorem get_year_idx_margins_safe (chunks : List Nat) (past_times : List Int)
    (lead_time : Int) (ys ye : Int)
    (hpt : ∀ p ∈ past_times, p ≤ 0) (hlt : 0 ≤ lead_time)
    (hys : 1979 ≤ ys) (hye : 1979 ≤ ye)
    (hel : (ye - 1979 + 1).toNat ≤ chunks.length) :
    (get_year_idx chunks past_times lead_time (ys, ye)).1
        = (raw_year_idx chunks (ys, ye)).1 - npMin (past_times ++ [0]) ∧
    (get_year_idx chunks past_times lead_time (ys, ye)).2
        = (raw_year_idx chunks (ys, ye)).2 - lead_time ∧
    ∀ i : Int, (get_year_idx chunks past_times lead_time (ys, ye)).1 ≤ i →
      i < (get_year_idx chunks past_times lead_time (ys, ye)).2 →
      (∀ p ∈ past_times, 0 ≤ i + p) ∧ i + lead_time < (chunks.sum : Int) := by
  refine ⟨rfl, rfl, ?_⟩
  intro i hs he
  simp only [get_year_idx, raw_year_idx] at hs he
  have hraw1 : (0:Int) ≤ ((pySliceTo chunks (ys - 1979 + 0)).sum : Int) := by
    exact_mod_cast Nat.zero_le _
  constructor
  · intro p hp
    have hm : npMin (past_times ++ [0]) ≤ p := npMin_append_zero_le hp
    linarith
  · have h2 : ((pySliceTo chunks (ye - 1979 + 1)).sum : Int) ≤ (chunks.sum : Int) := by
      exact_mod_cast pySliceTo_sum_le chunks (ye - 1979 + 1)
    linarith

theorem get_year_idx_margins_safe_witness :
    (get_year_idx [10, 20] [-2, -1, 0] 6 (1979, 1980)).1
        = (raw_year_idx [10, 20] (1979, 1980)).1 - npMin ([-2, -1, 0] ++ [0]) ∧
    (get_year_idx [10, 20] [-2, -1, 0] 6 (1979, 1980)).2
        = (raw_year_idx [10, 20] (1979, 1980)).2 - 6 ∧
    ∀ i : Int, (get_year_idx [10, 20] [-2, -1, 0] 6 (1979, 1980)).1 ≤ i →
      i < (get_year_idx [10, 20] [-2, -1, 0] 6 (1979, 1980)).2 →
      (∀ p ∈ ([-2, -1, 0] : List Int), 0 ≤ i + p) ∧
        i + 6 < (([10, 20] : List Nat).sum : Int) :=
  get_year_idx_margins_safe [10, 20] [-2, -1, 0] 6 1979 1980 (by decide) (by decide)
    (by decide) (by decide) (by decide)

/-- Claim C3, counterexample: the claim says the past-times runway is
subtracted only from the very first window of the whole index, so the
single-year window for the later year 1980 over chunks `[10, 10]` with
`past_times = [-2]` and `lead_time = 0` should have length
`c_Y - lead_time = 10`; the code gives `20 - 12 = 8`, subtracting the
runway for this later year as well. -/
theorem get_year_idx_single_year_counterexample :
    ¬ ((get_year_idx [10, 10] [-2] 0 (1980, 1980)).2
        - (get_year_idx [10, 10] [-2] 0 (1980, 1980)).1 = 10 - 0) := by
  decide

/-- Claim C3, amended: for every single-year range `[Y, Y]` inside the
indexed range — first year or not — the resolved window length equals the
chunk size of that year minus the lead time minus the past-times runway
`-min(past_times, 0)`. -/
theorem get_year_idx_single_year_length (chunks : List Nat) (past_times : List Int)
    (lead_time : Int) (Y : Int) (hY : 1979 ≤ Y)
    (hYl : (Y - 1979).toNat < chunks.length) :
    (get_year_idx chunks past_times lead_time (Y, Y)).2
        - (get_year_idx chunks past_times lead_time (Y, Y)).1
      = (chunks.getD (Y - 1979).toNat 0 : Int) - lead_time
          - (-(npMin (past_times ++ [0]))) := by
  simp only [get_year_idx, raw_year_idx]
  rw [pySliceTo_of_nonneg _ (by omega : (0:Int) ≤ Y - 1979 + 0),
      pySliceTo_of_nonneg _ (by omega : (0:Int) ≤ Y - 1979 + 1)]
  have h1 : (Y - 1979 + 0).toNat = (Y - 1979).toNat := by omega
  have h2 : (Y - 1979 + 1).toNat = (Y - 1979).toNat + 1 := by omega
  rw [h1, h2, sum_take_succ chunks _ hYl]
  push_cast
  ring

theorem get_year_idx_single_year_length_witness :
    (get_year_idx [10, 20] [-2] 6 (1980, 1980)).2
        - (get_year_idx [10, 20] [-2] 6 (1980, 1980)).1
      = (([10, 20] : List Nat).getD ((1980:Int) - 1979).toNat 0 : Int) - 6
          - (-(npMin ([-2] ++ [0]))) :=
  get_year_idx_single_year_length [10, 20] [-2] 6 1980 (by decide) (by decide)

/-- Claim C4: two non-overlapping requested year ranges resolved against the
same merged axis with non-negative lead time and non-positive past-time
offsets yield windows that are in year order — the earlier range's end
offset is at most the later range's start offset — hence disjoint. -/
theorem get_year_idx_windows_ordered (chunks : List Nat) (past_times : List Int)
    (lead_time : Int) (a₁ b₁ a₂ b₂ : Int)
    (hlt : 0 ≤ lead_time) (hpt : ∀ p ∈ past_times, p ≤ 0)
    (hb₁ : 1979 ≤ b₁) (hord : b₁ < a₂) :
    (get_year_idx chunks past_times lead_time (a₁, b₁)).2
        ≤ (get_year_idx chunks past_times lead_time (a₂, b₂)).1 ∧
    ∀ i : Int, ¬ ((get_year_idx chunks past_times lead_time (a₁, b₁)).1 ≤ i ∧
        i < (get_year_idx chunks past_times lead_time (a₁, b₁)).2 ∧
        (get_year_idx chunks past_times lead_time (a₂, b₂)).1 ≤ i ∧
        i < (get_year_idx chunks past_times lead_time (a₂, b₂)).2) := by
  have hm : npMin (past_times ++ [0]) ≤ 0 := npMin_append_zero_nonpos _
  have key : ((chunks.take (b₁ - 1979 + 1).toNat).sum : Int)
      ≤ ((chunks.take (a₂ - 1979 + 0).toNat).sum : Int) := by
    exact_mod_cast sum_take_mono chunks (by omega)
  have hmain : (get_year_idx chunks past_times lead_time (a₁, b₁)).2
      ≤ (get_year_idx chunks past_times lead_time (a₂, b₂)).1 := by
    simp only [get_year_idx, raw_year_idx]
    rw [pySliceTo_of_nonneg _ (by omega : (0:Int) ≤ b₁ - 1979 + 1),
        pySliceTo_of_nonneg _ (by omega : (0:Int) ≤ a₂ - 1979 + 0)]
    linarith
  exact ⟨hmain, fun i ⟨_, h₂, h₃, _⟩ => absurd hmain (by linarith)⟩

theorem get_year_idx_windows_ordered_witness :
    (get_year_idx [10, 20, 30] [-2] 6 (1979, 1979)).2
        ≤ (get_year_idx [10, 20, 30] [-2] 6 (1980, 1981)).1 ∧
    ∀ i : Int, ¬ ((get_year_idx [10, 20, 30] [-2] 6 (1979, 1979)).1 ≤ i ∧
        i < (get_year_idx [10, 20, 30] [-2] 6 (1979, 1979)).2 ∧
        (get_year_idx [10, 20, 30] [-2] 6 (1980, 1981)).1 ≤ i ∧
        i < (get_year_idx [10, 20, 30] [-2] 6 (1980, 1981)).2) :=
  get_year_idx_windows_ordered [10, 20, 30] [-2] 6 1979 1979 1980 1981
    (by decide) (by decide) (by decide) (by decide)

/-- Claim C8: the temporal index resolver is deterministic — two calls with
identical chunk sizes, past times, lead time and year range return identical
`(start, end)` pairs. -/
theorem get_year_idx_deterministic (c₁ c₂ : List Nat) (p₁ p₂ : List Int)
    (l₁ l₂ : Int) (y₁ y₂ : Int × Int)
    (hc : c₁ = c₂) (hp : p₁ = p₂) (hl : l₁ = l₂) (hy : y₁ = y₂) :
    get_year_idx c₁ p₁ l₁ y₁ = get_year_idx c₂ p₂ l₂ y₂ := by
  subst hc; subst hp; subst hl; subst hy; rfl

theorem get_year_idx_deterministic_witness :
    get_year_idx [10, 20] [-2] 6 (1979, 1980) = get_year_idx [10, 20] [-2] 6 (1979, 1980) :=
  get_year_idx_deterministic [10, 20] [10, 20] [-2] [-2] 6 6 (1979, 1980) (1979, 1980)
    rfl rfl rfl rfl

theorem named_network_convlstm_eq (n_in n_out : Nat) (ks fs : List Nat) :
    named_network "ConvLSTM" n_in n_out ks fs
      = match fs.getLast? with
        | none => .error .indexError
        | some last =>
          if last = n_out then
            circConvLSTM_new n_in ks.length (ks.map fun i => (i, i)) fs
          else
            .error (.assertionError "final hidden dim is overall output dim of network!") := by
  simp [named_network]

/-- Claim C5: the ConvLSTM branch of the model factory demands kernel and
filter lists of equal length whose final filter equals the requested output
channel count; any mismatch yields an error with no model object
constructed, while `kernel_sizes = [3,3]`, `filters = [16, n_output_channels]`
passes the checks. -/
theorem named_network_convlstm_contract (n_in n_out : Nat) (ks fs : List Nat) :
    ((ks.length ≠ fs.length ∨ fs.getLast? ≠ some n_out) →
      ∃ e, named_network "ConvLSTM" n_in n_out ks fs = Except.error e) ∧
    (∃ m, named_network "ConvLSTM" n_in n_out [3, 3] [16, n_out] = Except.ok m) := by
  constructor
  · intro h
    rw [named_network_convlstm_eq]
    cases hfs : fs.getLast? with
    | none => exact ⟨.indexError, rfl⟩
    | some last =>
      dsimp only
      by_cases hl : last = n_out
      · subst hl
        rw [if_pos rfl]
        have hlen : ks.length ≠ fs.length := by
          rcases h with h | h
          · exact h
          · exact absurd hfs h
        refine ⟨.valueError "Inconsistent list length.", ?_⟩
        unfold circConvLSTM_new
        exact if_neg (fun hc => hlen hc.2.symm)
      · rw [if_neg hl]
        exact ⟨_, rfl⟩
  · rw [named_network_convlstm_eq]
    have hlast : ([16, n_out] : List Nat).getLast? = some n_out := rfl
    rw [hlast]
    dsimp only
    rw [if_pos rfl]
    exact ⟨_, by unfold circConvLSTM_new; rw [if_pos ⟨rfl, rfl⟩]⟩

theorem named_network_convlstm_contract_witness :
    (∃ e, named_network "ConvLSTM" 1 2 [3] [16, 3] = Except.error e) ∧
    (∃ m, named_network "ConvLSTM" 1 2 [3, 3] [16, 2] = Except.ok m) :=
  ⟨(named_network_convlstm_contract 1 2 [3] [16, 3]).1 (by decide),
   (named_network_convlstm_contract 1 2 [3] [16, 3]).2⟩

/-- Claim C7: for every model name outside the five supported ones the model
factory returns the `NotImplementedError` immediately — no model object is
constructed. -/
theorem named_network_unknown_name (name : String) (n_in n_out : Nat)
    (ks fs : List Nat)
    (h : name ∉ (["cnnbn", "Unetbn", "tvfcnResnet50", "simpleResnet",
        "ConvLSTM"] : List String)) :
    named_network name n_in n_out ks fs = Except.error .notImplementedError := by
  simp only [List.mem_cons, List.not_mem_nil, or_false, not_or] at h
  obtain ⟨h1, h2, h3, h4, h5⟩ := h
  simp [named_network, h1, h2, h3, h4, h5]

theorem named_network_unknown_name_witness :
    named_network "resnet101" 3 2 [] [] = Except.error .notImplementedError :=
  named_network_unknown_name "resnet101" 3 2 [] [] (by decide)

theorem zscored_ne_level_names (datadir : String) :
    datadir ++ "5_625deg_all_zscored.npy" ≠ datadir ++ "5_625deg_all_level_names.npy" := by
  intro h
  have hd : datadir.data ++ ("5_625deg_all_zscored.npy" : String).data
      = datadir.data ++ ("5_625deg_all_level_names.npy" : String).data := by
    have hc := congrArg String.data h
    simp only [String.data_append] at hc
    exact hc
  have := List.append_cancel_left hd
  simp at this

/-- Claim C6: across one `load_data` call only the train view construction
opens the physical backing array and level-name metadata files; the
validation and test views are constructed from the train view's resolved
`data` and `level_names` handles, so each file is opened exactly once. -/
theorem load_data_single_open {α : Type} (vd td : α) (lt : Int)
    (y₁ y₂ y₃ : Int × Int) (dd : String) (mm : Option String) (pt : List Int)
    (ax vb : Bool) (ch : List Nat) :
    (load_data vd lt y₁ y₂ y₃ td dd mm pt ax vb ch).dg_validation.filedir
        = (load_data vd lt y₁ y₂ y₃ td dd mm pt ax vb ch).dg_train.data ∧
    (load_data vd lt y₁ y₂ y₃ td dd mm pt ax vb ch).dg_validation.leveldir
        = (load_data vd lt y₁ y₂ y₃ td dd mm pt ax vb ch).dg_train.level_names ∧
    (load_data vd lt y₁ y₂ y₃ td dd mm pt ax vb ch).dg_test.filedir
        = (load_data vd lt y₁ y₂ y₃ td dd mm pt ax vb ch).dg_train.data ∧
    (load_data vd lt y₁ y₂ y₃ td dd mm pt ax vb ch).dg_test.leveldir
        = (load_data vd lt y₁ y₂ y₃ td dd mm pt ax vb ch).dg_train.level_names ∧
    (load_data vd lt y₁ y₂ y₃ td dd mm pt ax vb ch).openTrace
        = [dd ++ "5_625deg_all_zscored.npy", dd ++ "5_625deg_all_level_names.npy"] ∧
    (load_data vd lt y₁ y₂ y₃ td dd mm pt ax vb ch).openTrace.count
        (dd ++ "5_625deg_all_zscored.npy") = 1 ∧
    (load_data vd lt y₁ y₂ y₃ td dd mm pt ax vb ch).openTrace.count
        (dd ++ "5_625deg_all_level_names.npy") = 1 := by
  refine ⟨rfl, rfl, rfl, rfl, rfl, ?_, ?_⟩ <;>
    simp [load_data, LoadDataResult.openTrace, Dataset_memmap.opens,
      Dataset_memmap.data, Dataset_memmap.level_names, resolveRef, refOpens,
      List.count_cons, zscored_ne_level_names dd,
      (zscored_ne_level_names dd).symm]

/-- Claim C9: `load_data` normalizes an `mmap_mode` of the string `'None'` or
of Python `None` to `None`, warns about loading the whole dataset into
memory, and hands the normalized mode to all three views; any other mode is
passed through to all three views unchanged with no warning. -/
theorem load_data_mmap_normalization {α : Type} (vd td : α) (lt : Int)
    (y₁ y₂ y₃ : Int × Int) (dd : String) (mm : Option String) (pt : List Int)
    (ax vb : Bool) (ch : List Nat) :
    ((mm = some "None" ∨ mm = none) →
      (load_data vd lt y₁ y₂ y₃ td dd mm pt ax vb ch).warned = true ∧
      (load_data vd lt y₁ y₂ y₃ td dd mm pt ax vb ch).dg_train.mmap_mode = none ∧
      (load_data vd lt y₁ y₂ y₃ td dd mm pt ax vb ch).dg_validation.mmap_mode = none ∧
      (load_data vd lt y₁ y₂ y₃ td dd mm pt ax vb ch).dg_test.mmap_mode = none) ∧
    (¬(mm = some "None" ∨ mm = none) →
      (load_data vd lt y₁ y₂ y₃ td dd mm pt ax vb ch).warned = false ∧
      (load_data vd lt y₁ y₂ y₃ td dd mm pt ax vb ch).dg_train.mmap_mode = mm ∧
      (load_data vd lt y₁ y₂ y₃ td dd mm pt ax vb ch).dg_validation.mmap_mode = mm ∧
      (load_data vd lt y₁ y₂ y₃ td dd mm pt ax vb ch).dg_test.mmap_mode = mm) := by
  constructor
  · intro h
    refine ⟨?_, ?_, ?_, ?_⟩ <;> simp [load_data, h]
  · intro h
    refine ⟨?_, ?_, ?_, ?_⟩ <;> simp [load_data, h]

theorem load_data_mmap_normalization_witness :
    (load_data (α := Unit) () 6 (1979, 1979) (1980, 1980) (1981, 1981) () "d"
        (some "None") [] false false [10, 20, 30]).warned = true ∧
    (load_data (α := Unit) () 6 (1979, 1979) (1980, 1980) (1981, 1981) () "d"
        (some "None") [] false false [10, 20, 30]).dg_train.mmap_mode = none ∧
    (load_data (α := Unit) () 6 (1979, 1979) (1980, 1980) (1981, 1981) () "d"
        (some "None") [] false false [10, 20, 30]).dg_validation.mmap_mode = none ∧
    (load_data (α := Unit) () 6 (1979, 1979) (1980, 1980) (1981, 1981) () "d"
        (some "None") [] false false [10, 20, 30]).dg_test.mmap_mode = none :=
  (load_data_mmap_normalization () () 6 (1979, 1979) (1980, 1980) (1981, 1981) "d"
      (some "None") [] false false [10, 20, 30]).1 (Or.inl rfl)

/-- Claim C10: in every `load_data` call the train view is constructed with
randomized sample order and the validation and test views with chronological
order, and all three views receive the same variable catalog, target
catalog, lead time, past times, and `float32` dtype. -/
theorem load_data_view_args {α : Type} (vd td : α) (lt : Int)
    (y₁ y₂ y₃ : Int × Int) (dd : String) (mm : Option String) (pt : List Int)
    (ax vb : Bool) (ch : List Nat) :
    (load_data vd lt y₁ y₂ y₃ td dd mm pt ax vb ch).dg_train.randomize_order = true ∧
    (load_data vd lt y₁ y₂ y₃ td dd mm pt ax vb ch).dg_validation.randomize_order = false ∧
    (load_data vd lt y₁ y₂ y₃ td dd mm pt ax vb ch).dg_test.randomize_order = false ∧
    ∀ d ∈ [(load_data vd lt y₁ y₂ y₃ td dd mm pt ax vb ch).dg_train,
           (load_data vd lt y₁ y₂ y₃ td dd mm pt ax vb ch).dg_validation,
           (load_data vd lt y₁ y₂ y₃ td dd mm pt ax vb ch).dg_test],
      d.var_dict = vd ∧ d.target_var_dict = td ∧ d.lead_time = lt ∧
      d.past_times = pt ∧ d.dtype = NpDtype.float32 := by
  refine ⟨rfl, rfl, rfl, ?_⟩
  intro d hd
  simp only [List.mem_cons, List.not_mem_nil, or_false] at hd
  rcases hd with rfl | rfl | rfl <;> exact ⟨rfl, rfl, rfl, rfl, rfl⟩

end WeatherBench
